import Mathlib

/-!
Verification development for the rt-docetl provider layer
(`server/app/providers/datasets.py` and `server/app/providers/pipelines.py`).

Python strings are modelled as `List Char`, byte strings as `List Nat`
(each entry < 256 wherever produced by our encoder), the local filesystem
and the remote object store as association lists from paths/keys to byte
contents, and the HTTP / object-storage / layout-resolver collaborators as
explicit function-valued parameters.  Every fallible operation returns
`Except PyErr`, whose constructors name the concrete `raise` sites of the
source.
-/

namespace DocETL

/-- Python `str`, modelled as a list of characters. -/
abbrev Str := List Char

/-- Python `bytes`, modelled as a list of byte values. -/
abbrev Bytes := List Nat

/-- Join two path components with `/`, as `pathlib.Path.__truediv__` does. -/
def pathJoin (a b : Str) : Str := a ++ '/' :: b

/-- Truthiness of an optional Python string: `None` and `""` are falsy. -/
def pyTruthyOptStr : Option Str → Bool
  | none => false
  | some s => !s.isEmpty

/-- `s.split("/")[-1]`: the characters after the last `/` (the whole string
if there is no `/`). -/
def lastSegment (s : Str) : Str :=
  s.foldl (fun acc c => if c = '/' then [] else acc ++ [c]) []

/-- `str.lower()`, restricted to the per-character lowering relevant here. -/
def pyLower (s : Str) : Str := s.map Char.toLower

/-- `str.rstrip(ch)`: drop trailing occurrences of a character. -/
def pyRstrip (ch : Char) (s : Str) : Str :=
  (s.reverse.dropWhile (· = ch)).reverse

/-- Fuel-indexed worker for `str.replace`; one unit of fuel per consumed
character suffices, since every step consumes at least one. -/
def pyReplaceFuel (needle repl : Str) : Nat → Str → Str
  | _, [] => []
  | 0, s => s
  | f + 1, c :: rest =>
    if needle ≠ [] ∧ needle.isPrefixOf (c :: rest) then
      repl ++ pyReplaceFuel needle repl f ((c :: rest).drop needle.length)
    else
      c :: pyReplaceFuel needle repl f rest

/-- `str.replace(needle, repl)` for a nonempty needle: replace every
leftmost non-overlapping occurrence. -/
def pyReplace (needle repl s : Str) : Str := pyReplaceFuel needle repl s.length s

mutual

/-- Strict UTF-8 decoding (as CPython's `bytes.decode("utf-8")`):
rejects truncated sequences, stray continuation bytes, overlong forms and
surrogate encodings.  Multi-byte sequences are handled by
`utf8DecodeMulti`. -/
def utf8Decode : Bytes → Option Str
  | [] => some []
  | b :: rest =>
    if b < 0x80 then
      Option.map (Char.ofNat b :: ·) (utf8Decode rest)
    else utf8DecodeMulti b rest

/-- Decoding of one multi-byte UTF-8 sequence with lead byte `b`,
followed by decoding of the remainder. -/
def utf8DecodeMulti (b : Nat) : Bytes → Option Str
  | [] => none
  | b1 :: rest1 =>
    if 0xC2 ≤ b ∧ b ≤ 0xDF then
      if 0x80 ≤ b1 ∧ b1 ≤ 0xBF then
        Option.map (Char.ofNat ((b - 0xC0) * 64 + (b1 - 0x80)) :: ·) (utf8Decode rest1)
      else none
    else if 0xE0 ≤ b ∧ b ≤ 0xEF then
      match rest1 with
      | b2 :: rest2 =>
        let lo1 := if b = 0xE0 then 0xA0 else 0x80
        let hi1 := if b = 0xED then 0x9F else 0xBF
        if (lo1 ≤ b1 ∧ b1 ≤ hi1) ∧ (0x80 ≤ b2 ∧ b2 ≤ 0xBF) then
          Option.map
            (Char.ofNat ((b - 0xE0) * 4096 + (b1 - 0x80) * 64 + (b2 - 0x80)) :: ·)
            (utf8Decode rest2)
        else none
      | [] => none
    else if 0xF0 ≤ b ∧ b ≤ 0xF4 then
      match rest1 with
      | b2 :: b3 :: rest3 =>
        let lo1 := if b = 0xF0 then 0x90 else 0x80
        let hi1 := if b = 0xF4 then 0x8F else 0xBF
        if (lo1 ≤ b1 ∧ b1 ≤ hi1) ∧ (0x80 ≤ b2 ∧ b2 ≤ 0xBF) ∧ (0x80 ≤ b3 ∧ b3 ≤ 0xBF) then
          Option.map
            (Char.ofNat ((b - 0xF0) * 0x40000 + (b1 - 0x80) * 4096 + (b2 - 0x80) * 64 + (b3 - 0x80)) :: ·)
            (utf8Decode rest3)
        else none
      | _ => none
    else none

end

/-- UTF-8 encoding of one character. -/
def utf8EncodeChar (c : Char) : Bytes :=
  let n := c.toNat
  if n < 0x80 then [n]
  else if n < 0x800 then [0xC0 + n / 64, 0x80 + n % 64]
  else if n < 0x10000 then [0xE0 + n / 4096, 0x80 + n / 64 % 64, 0x80 + n % 64]
  else [0xF0 + n / 0x40000, 0x80 + n / 4096 % 64, 0x80 + n / 64 % 64, 0x80 + n % 64]

/-- UTF-8 encoding of a string (`str.encode("utf-8")`). -/
def utf8Encode : Str → Bytes
  | [] => []
  | c :: rest => utf8EncodeChar c ++ utf8Encode rest

/-! ## JSON values, serialization (`json.dumps`) and parsing (`json.loads`) -/

/-- JSON document model.  Numeric literals are kept as their lexeme, so no
floating-point semantics is involved anywhere. -/
inductive Json where
  | null
  | bool (b : Bool)
  | num (lexeme : Str)
  | str (s : Str)
  | arr (elems : List Json)
  | obj (members : List (Str × Json))

/-- Lowercase hexadecimal digit, as used by `json.dumps` escapes. -/
def hexDigit (n : Nat) : Char :=
  if n < 10 then Char.ofNat (48 + n) else Char.ofNat (87 + n)

/-- Four lowercase hex digits of a value below `0x10000`. -/
def hex4 (n : Nat) : Str :=
  [hexDigit (n / 4096 % 16), hexDigit (n / 256 % 16), hexDigit (n / 16 % 16), hexDigit (n % 16)]

/-- Escaping of one character in a `json.dumps` string literal with the
default `ensure_ascii=True`: `"` and `\` and everything outside
`0x20..0x7E` is escaped, with the usual two-character shortcuts. -/
def dumpStrChar (c : Char) : Str :=
  if c = '"' then ['\\', '"']
  else if c = '\\' then ['\\', '\\']
  else if c.toNat = 8 then ['\\', 'b']
  else if c.toNat = 9 then ['\\', 't']
  else if c.toNat = 10 then ['\\', 'n']
  else if c.toNat = 12 then ['\\', 'f']
  else if c.toNat = 13 then ['\\', 'r']
  else if 0x20 ≤ c.toNat ∧ c.toNat ≤ 0x7E then [c]
  else if c.toNat < 0x10000 then '\\' :: 'u' :: hex4 c.toNat
  else
    '\\' :: 'u' :: hex4 (0xD800 + (c.toNat - 0x10000) / 1024) ++
      '\\' :: 'u' :: hex4 (0xDC00 + (c.toNat - 0x10000) % 1024)

/-- Body of a serialized string literal. -/
def dumpStrBody : Str → Str
  | [] => []
  | c :: rest => dumpStrChar c ++ dumpStrBody rest

/-- A serialized string literal, quotes included. -/
def dumpStr (s : Str) : Str := '"' :: dumpStrBody s ++ ['"']

mutual

/-- `json.dumps` with the default separators `", "` and `": "`. -/
def dumps : Json → Str
  | .null => "null".data
  | .bool true => "true".data
  | .bool false => "false".data
  | .num lexeme => lexeme
  | .str s => dumpStr s
  | .arr [] => "[]".data
  | .arr (x :: xs) => '[' :: dumps x ++ dumpsElemsRest xs ++ [']']
  | .obj [] => "\x7b\x7d".data
  | .obj (kv :: kvs) => '\x7b' :: dumpMember kv ++ dumpsMembersRest kvs ++ ['\x7d']

/-- Serialization of the second and later array elements. -/
def dumpsElemsRest : List Json → Str
  | [] => []
  | x :: xs => ',' :: ' ' :: dumps x ++ dumpsElemsRest xs

/-- Serialization of a single object member. -/
def dumpMember : Str × Json → Str
  | (k, v) => dumpStr k ++ ':' :: ' ' :: dumps v

/-- Serialization of the second and later object members. -/
def dumpsMembersRest : List (Str × Json) → Str
  | [] => []
  | kv :: kvs => ',' :: ' ' :: dumpMember kv ++ dumpsMembersRest kvs

end

/-- JSON whitespace accepted between tokens by `json.loads`. -/
def jsonWS (c : Char) : Bool := c = ' ' || c = '\t' || c = '\n' || c = '\r'

/-- Skip JSON whitespace. -/
def skipWS (s : Str) : Str := s.dropWhile jsonWS

/-- Hex-digit test for `\uXXXX` escapes. -/
def isHexDigitC (c : Char) : Bool :=
  ('0' ≤ c && c ≤ '9') || ('a' ≤ c && c ≤ 'f') || ('A' ≤ c && c ≤ 'F')

/-- Value of a hex digit. -/
def hexVal (c : Char) : Nat :=
  if '0' ≤ c && c ≤ '9' then c.toNat - 48
  else if 'a' ≤ c && c ≤ 'f' then c.toNat - 87
  else c.toNat - 55

/-- One-character escape shortcuts of JSON string literals. -/
def escChar (e : Char) : Option Char :=
  if e = '"' then some '"'
  else if e = '\\' then some '\\'
  else if e = '/' then some '/'
  else if e = 'b' then some (Char.ofNat 8)
  else if e = 'f' then some (Char.ofNat 12)
  else if e = 'n' then some '\n'
  else if e = 'r' then some (Char.ofNat 13)
  else if e = 't' then some '\t'
  else none

/-- Parse the body of a string literal after the opening quote.  Returns
the decoded characters and the input after the closing quote.  Raw control
characters are rejected (`json.loads` is strict by default). -/
def parseStringBody : Str → Option (Str × Str)
  | [] => none
  | c :: rest =>
    if c = '"' then some ([], rest)
    else if c = '\\' then
      match rest with
      | [] => none
      | e :: r =>
        if e = 'u' then
          match r with
          | h1 :: h2 :: h3 :: h4 :: r4 =>
            if isHexDigitC h1 && isHexDigitC h2 && isHexDigitC h3 && isHexDigitC h4 then
              Option.map
                (fun p => (Char.ofNat (hexVal h1 * 4096 + hexVal h2 * 256 + hexVal h3 * 16 + hexVal h4) :: p.1, p.2))
                (parseStringBody r4)
            else none
          | _ => none
        else
          match escChar e with
          | none => none
          | some d => Option.map (fun p => (d :: p.1, p.2)) (parseStringBody r)
    else if c.toNat < 0x20 then none
    else Option.map (fun p => (c :: p.1, p.2)) (parseStringBody rest)

/-- Digit test. -/
def isDigitC (c : Char) : Bool := '0' ≤ c && c ≤ '9'

/-- Parse a JSON number token (the regex of `json.scanner`): returns the
lexeme and the remaining input. -/
def parseNumber (s : Str) : Option (Str × Str) :=
  let (negPart, s1) := match s with
    | '-' :: r => (['-'], r)
    | _ => (([] : Str), s)
  match s1 with
  | [] => none
  | c :: r =>
    if c = '0' then
      let (intPart, rest) := (['0'], r)
      let (fracPart, rest1) := match rest with
        | '.' :: r2 =>
          if (r2.takeWhile isDigitC).isEmpty then (([] : Str), rest)
          else ('.' :: r2.takeWhile isDigitC, r2.dropWhile isDigitC)
        | _ => (([] : Str), rest)
      let (expPart, rest2) := match rest1 with
        | e :: r3 =>
          if e = 'e' || e = 'E' then
            let (sgn, r4) := match r3 with
              | '+' :: r5 => ((['+'] : Str), r5)
              | '-' :: r5 => ((['-'] : Str), r5)
              | _ => (([] : Str), r3)
            if (r4.takeWhile isDigitC).isEmpty then (([] : Str), rest1)
            else (e :: sgn ++ r4.takeWhile isDigitC, r4.dropWhile isDigitC)
          else (([] : Str), rest1)
        | _ => (([] : Str), rest1)
      some (negPart ++ intPart ++ fracPart ++ expPart, rest2)
    else if isDigitC c then
      let (intPart, rest) := (c :: r.takeWhile isDigitC, r.dropWhile isDigitC)
      let (fracPart, rest1) := match rest with
        | '.' :: r2 =>
          if (r2.takeWhile isDigitC).isEmpty then (([] : Str), rest)
          else ('.' :: r2.takeWhile isDigitC, r2.dropWhile isDigitC)
        | _ => (([] : Str), rest)
      let (expPart, rest2) := match rest1 with
        | e :: r3 =>
          if e = 'e' || e = 'E' then
            let (sgn, r4) := match r3 with
              | '+' :: r5 => ((['+'] : Str), r5)
              | '-' :: r5 => ((['-'] : Str), r5)
              | _ => (([] : Str), r3)
            if (r4.takeWhile isDigitC).isEmpty then (([] : Str), rest1)
            else (e :: sgn ++ r4.takeWhile isDigitC, r4.dropWhile isDigitC)
          else (([] : Str), rest1)
        | _ => (([] : Str), rest1)
      some (negPart ++ intPart ++ fracPart ++ expPart, rest2)
    else none

mutual

/-- Fuel-indexed JSON value parser.  The fuel only has to dominate the
recursion depth; the top-level entry point supplies a sufficient budget. -/
def parseValue : Nat → Str → Option (Json × Str)
  | 0, _ => none
  | fuel + 1, s =>
    match s with
    | 'n' :: 'u' :: 'l' :: 'l' :: rest => some (.null, rest)
    | 't' :: 'r' :: 'u' :: 'e' :: rest => some (.bool true, rest)
    | 'f' :: 'a' :: 'l' :: 's' :: 'e' :: rest => some (.bool false, rest)
    | 'N' :: 'a' :: 'N' :: rest => some (.num "NaN".data, rest)
    | 'I' :: 'n' :: 'f' :: 'i' :: 'n' :: 'i' :: 't' :: 'y' :: rest =>
      some (.num "Infinity".data, rest)
    | '-' :: 'I' :: 'n' :: 'f' :: 'i' :: 'n' :: 'i' :: 't' :: 'y' :: rest =>
      some (.num "-Infinity".data, rest)
    | '"' :: rest => Option.map (fun p => (Json.str p.1, p.2)) (parseStringBody rest)
    | '[' :: rest =>
      (match skipWS rest with
       | ']' :: r1 => some (.arr [], r1)
       | r1 => Option.map (fun p => (Json.arr p.1, p.2)) (parseElems fuel r1))
    | '\x7b' :: rest =>
      (match skipWS rest with
       | '\x7d' :: r1 => some (.obj [], r1)
       | r1 => Option.map (fun p => (Json.obj p.1, p.2)) (parseMembers fuel r1))
    | _ => Option.map (fun p => (Json.num p.1, p.2)) (parseNumber s)

/-- Parse one or more comma-separated array elements up to `]`. -/
def parseElems : Nat → Str → Option (List Json × Str)
  | 0, _ => none
  | fuel + 1, s =>
    match parseValue fuel s with
    | none => none
    | some (v, rest) =>
      match skipWS rest with
      | ',' :: r1 =>
        (match parseElems fuel (skipWS r1) with
         | none => none
         | some (vs, r2) => some (v :: vs, r2))
      | ']' :: r1 => some ([v], r1)
      | _ => none

/-- Parse one or more comma-separated object members up to the closing
brace. -/
def parseMembers : Nat → Str → Option (List (Str × Json) × Str)
  | 0, _ => none
  | fuel + 1, s =>
    match s with
    | '"' :: rest =>
      (match parseStringBody rest with
       | none => none
       | some (k, r1) =>
         match skipWS r1 with
         | ':' :: r2 =>
           (match parseValue fuel (skipWS r2) with
            | none => none
            | some (v, r3) =>
              match skipWS r3 with
              | ',' :: r4 =>
                (match parseMembers fuel (skipWS r4) with
                 | none => none
                 | some (kvs, r5) => some ((k, v) :: kvs, r5))
              | '\x7d' :: r4 => some ([(k, v)], r4)
              | _ => none)
         | _ => none)
    | _ => none

end

/-- `json.loads` on a decoded string: parse one document with generous
fuel and require only whitespace to remain. -/
def jsonParse (s : Str) : Option Json :=
  let t := skipWS s
  match parseValue (2 * t.length + 2) t with
  | some (v, rest) => if skipWS rest = [] then some v else none
  | none => none

/-! ## Python dictionaries (insertion-ordered, in-place update) -/

/-- `d[k] = v` on a Python dict: update the value in place when the key is
present, append otherwise. -/
def pyDictInsert {α : Type} (d : List (Str × α)) (k : Str) (v : α) : List (Str × α) :=
  if d.any (fun p => p.1 = k) then d.map (fun p => if p.1 = k then (k, v) else p)
  else d ++ [(k, v)]

/-- `dict(pairs)`: fold the pairs by insertion. -/
def pyDictOfPairs {α : Type} (ps : List (Str × α)) : List (Str × α) :=
  ps.foldl (fun d p => pyDictInsert d p.1 p.2) []

/-- `a | b` on Python dicts: `a` updated by every entry of `b`. -/
def pyDictMerge {α : Type} (a b : List (Str × α)) : List (Str × α) :=
  b.foldl (fun d p => pyDictInsert d p.1 p.2) a

/-- `d.get(k)` collapsed to a lookup returning `none` when absent. -/
def pyDictFind {α : Type} (d : List (Str × α)) (k : Str) : Option α :=
  (d.find? (fun p => p.1 = k)).map (fun p => p.2)

/-! ## `str.splitlines` and the `csv` module (unquoted dialect)

`csv.DictReader` is modelled for input without quote characters, where
each physical line is one record split on commas; the quoting machinery of
the `csv` module is outside the fragment exercised by the claims. -/

/-- Worker for `str.splitlines`, handling `\n`, `\r\n` and `\r`. -/
def splitlinesAux : Str → Str → List Str
  | [], acc => if acc.isEmpty then [] else [acc.reverse]
  | '\r' :: '\n' :: rest, acc => acc.reverse :: splitlinesAux rest []
  | '\n' :: rest, acc => acc.reverse :: splitlinesAux rest []
  | '\r' :: rest, acc => acc.reverse :: splitlinesAux rest []
  | c :: rest, acc => splitlinesAux rest (c :: acc)

/-- `str.splitlines()`: no trailing empty line. -/
def pySplitlines (s : Str) : List Str := splitlinesAux s []

/-- One `csv.reader` record from one physical line: a blank line is the
empty record, otherwise the fields are the comma-separated pieces. -/
def csvSplitRow (line : Str) : List Str :=
  if line.isEmpty then [] else line.splitOn ','

/-- One `csv.DictReader` row dictionary: `dict(zip(fieldnames, row))`,
then the `restkey`/`restval` handling for rows longer or shorter than the
header.  The `restkey` is `None`, which `json.dumps` serializes as the
key `"null"`, and `restval` is `None`, serialized as `null`; both
conversions are folded in here because the dictionaries exist only to be
serialized. -/
def dictReaderRow (fieldnames row : List Str) : List (Str × Json) :=
  let d := pyDictOfPairs ((List.zip fieldnames row).map (fun kv => (kv.1, Json.str kv.2)))
  if fieldnames.length < row.length then
    pyDictInsert d "null".data (Json.arr ((row.drop fieldnames.length).map Json.str))
  else if row.length < fieldnames.length then
    (fieldnames.drop row.length).foldl (fun dd k => pyDictInsert dd k Json.null) d
  else d

/-- `list(csv.DictReader(lines))`: the first record gives the field
names, blank records are skipped, every other record becomes a row
dictionary. -/
def dictReaderAll (lines : List Str) : List (List (Str × Json)) :=
  match lines.map csvSplitRow with
  | [] => []
  | header :: rest => (rest.filter (fun r => !r.isEmpty)).map (dictReaderRow header)

/-! ## Error kinds

One constructor per `raise` site of the source (plus the uncaught
`UnicodeDecodeError` that `json.loads` lets escape `_validate_json_content`,
which only catches `json.JSONDecodeError`). -/

/-- Failure outcomes of the provider layer. -/
inductive PyErr where
  /-- `HTTPException(400, "Invalid JSON format: ...")` from `_validate_json_content`. -/
  | invalidJsonFormat
  /-- `HTTPException(400, "Invalid CSV encoding")` from `_convert_csv_to_json`. -/
  | invalidCsvEncoding
  /-- `HTTPException(400, "CSV file is empty")` from `_convert_csv_to_json`. -/
  | csvEmpty
  /-- Uncaught `UnicodeDecodeError` escaping `json.loads` on invalid UTF-8. -/
  | unicodeDecodeError
  /-- `HTTPException(400, "Failed to download ...")` on a non-200 response. -/
  | downloadFailed (status : Nat)
  /-- `HTTPException(404, "Dataset not found")`. -/
  | datasetNotFound
  /-- `HTTPException(400, "Either file or url must be provided")`. -/
  | fileOrUrlRequired
  /-- `HTTPException(400, "source_version_id requires the RT dataset provider")`. -/
  | sourceVersionRequiresRT
  /-- `HTTPException(400, "dataset_url or source_version_id is required")`. -/
  | datasetUrlOrSourceVersionRequired
  /-- `HTTPException(500, "Storage client ... disabled ...")` or an invalid
  storage configuration; both terminal states of `_ensure_storage`. -/
  | storageDisabled
  /-- `AttributeError` from calling a method on `None` (unreachable under
  the guards of the source, kept for totality). -/
  | noneTypeError
deriving DecidableEq, Repr

/-! ## Format normalization (`_validate_json_content`, `_convert_csv_to_json`,
`_is_likely_csv`) -/

/-- The encodings `json.detect_encoding` can name. -/
inductive JEnc where
  | utf8
  | utf8sig
  | utf16
  | utf16le
  | utf16be
  | utf32
  | utf32le
  | utf32be
deriving DecidableEq, Repr

/-- `json.detect_encoding` (CPython `json/__init__.py`): sniff the
encoding of bytes input from a BOM, or from the null-byte patterns of the
first two or four bytes; default `utf-8`. -/
def detect_encoding (b : Bytes) : JEnc :=
  if [0x00, 0x00, 0xFE, 0xFF].isPrefixOf b || [0xFF, 0xFE, 0x00, 0x00].isPrefixOf b then
    .utf32
  else if [0xFE, 0xFF].isPrefixOf b || [0xFF, 0xFE].isPrefixOf b then .utf16
  else if [0xEF, 0xBB, 0xBF].isPrefixOf b then .utf8sig
  else
    match b with
    | b0 :: b1 :: b2 :: b3 :: _ =>
      if b0 = 0 then (if b1 ≠ 0 then .utf16be else .utf32be)
      else if b1 = 0 then (if b2 ≠ 0 ∨ b3 ≠ 0 then .utf16le else .utf32le)
      else .utf8
    | [b0, b1] =>
      if b0 = 0 then .utf16be
      else if b1 = 0 then .utf16le
      else .utf8
    | _ => .utf8

mutual

/-- UTF-8 decoding with `errors="surrogatepass"`, as `json.loads` applies
to bytes: exactly strict UTF-8, except that the three-byte encodings of
the surrogate range `U+D800..U+DFFF` (lead `0xED`, first continuation up
to `0xBF`) are accepted and yield the lone surrogate.  The output is the
list of code points, since lone surrogates are not `Char`s. -/
def utf8SPDecode : Bytes → Option (List Nat)
  | [] => some []
  | b :: rest =>
    if b < 0x80 then Option.map (b :: ·) (utf8SPDecode rest)
    else utf8SPDecodeMulti b rest

/-- One multi-byte sequence under `surrogatepass`, then the remainder. -/
def utf8SPDecodeMulti (b : Nat) : Bytes → Option (List Nat)
  | [] => none
  | b1 :: rest1 =>
    if 0xC2 ≤ b ∧ b ≤ 0xDF then
      if 0x80 ≤ b1 ∧ b1 ≤ 0xBF then
        Option.map (((b - 0xC0) * 64 + (b1 - 0x80)) :: ·) (utf8SPDecode rest1)
      else none
    else if 0xE0 ≤ b ∧ b ≤ 0xEF then
      match rest1 with
      | b2 :: rest2 =>
        let lo1 := if b = 0xE0 then 0xA0 else 0x80
        if (lo1 ≤ b1 ∧ b1 ≤ 0xBF) ∧ (0x80 ≤ b2 ∧ b2 ≤ 0xBF) then
          Option.map (((b - 0xE0) * 4096 + (b1 - 0x80) * 64 + (b2 - 0x80)) :: ·)
            (utf8SPDecode rest2)
        else none
      | [] => none
    else if 0xF0 ≤ b ∧ b ≤ 0xF4 then
      match rest1 with
      | b2 :: b3 :: rest3 =>
        let lo1 := if b = 0xF0 then 0x90 else 0x80
        let hi1 := if b = 0xF4 then 0x8F else 0xBF
        if (lo1 ≤ b1 ∧ b1 ≤ hi1) ∧ (0x80 ≤ b2 ∧ b2 ≤ 0xBF) ∧ (0x80 ≤ b3 ∧ b3 ≤ 0xBF) then
          Option.map
            (((b - 0xF0) * 0x40000 + (b1 - 0x80) * 4096 + (b2 - 0x80) * 64 + (b3 - 0x80)) :: ·)
            (utf8SPDecode rest3)
        else none
      | _ => none
    else none

end

/-- The 16-bit code units of UTF-16 bytes (little- or big-endian);
`none` on an odd trailing byte — "truncated data", which
`surrogatepass` does not excuse. -/
def utf16Units (le : Bool) : Bytes → Option (List Nat)
  | [] => some []
  | [_] => none
  | a :: b :: rest =>
    Option.map ((if le then b * 256 + a else a * 256 + b) :: ·) (utf16Units le rest)

/-- Combine well-formed surrogate pairs into supplementary code points;
an unpaired surrogate passes through under `errors="surrogatepass"`. -/
def utf16CombineSP : List Nat → List Nat
  | [] => []
  | [u] => [u]
  | u :: v :: rest2 =>
    if (0xD800 ≤ u ∧ u ≤ 0xDBFF) ∧ (0xDC00 ≤ v ∧ v ≤ 0xDFFF) then
      (0x10000 + (u - 0xD800) * 1024 + (v - 0xDC00)) :: utf16CombineSP rest2
    else u :: utf16CombineSP (v :: rest2)

/-- UTF-16 decoding with `errors="surrogatepass"`. -/
def utf16SPDecode (le : Bool) (b : Bytes) : Option (List Nat) :=
  Option.map utf16CombineSP (utf16Units le b)

/-- UTF-32 decoding with `errors="surrogatepass"`: 4-byte words, values
above `0x10FFFF` and truncated words are decode errors, surrogates
pass. -/
def utf32SPDecode (le : Bool) : Bytes → Option (List Nat)
  | [] => some []
  | a :: b :: c :: d :: rest =>
    let v := if le then ((d * 256 + c) * 256 + b) * 256 + a
             else ((a * 256 + b) * 256 + c) * 256 + d
    if v ≤ 0x10FFFF then Option.map (v :: ·) (utf32SPDecode le rest) else none
  | _ => none

/-- `bytes.decode(codec, "surrogatepass")` for the codecs
`detect_encoding` can name.  The BOM-autodetecting `utf-16`/`utf-32`
codecs strip a leading BOM and follow its byte order; without a BOM they
use the platform (little-endian) order — unreachable from
`detect_encoding`, which names them only when a BOM is present. -/
def decodeWithCodec : JEnc → Bytes → Option (List Nat)
  | .utf8, b => utf8SPDecode b
  | .utf8sig, b =>
    match b with
    | 0xEF :: 0xBB :: 0xBF :: rest => utf8SPDecode rest
    | _ => utf8SPDecode b
  | .utf16, b =>
    match b with
    | 0xFF :: 0xFE :: rest => utf16SPDecode true rest
    | 0xFE :: 0xFF :: rest => utf16SPDecode false rest
    | _ => utf16SPDecode true b
  | .utf16le, b => utf16SPDecode true b
  | .utf16be, b => utf16SPDecode false b
  | .utf32, b =>
    match b with
    | 0xFF :: 0xFE :: 0x00 :: 0x00 :: rest => utf32SPDecode true rest
    | 0x00 :: 0x00 :: 0xFE :: 0xFF :: rest => utf32SPDecode false rest
    | _ => utf32SPDecode true b
  | .utf32le, b => utf32SPDecode true b
  | .utf32be, b => utf32SPDecode false b

/-- `s.decode(detect_encoding(s), "surrogatepass")` — the bytes-input
step of `json.loads`. -/
def pyDecodeJson (b : Bytes) : Option (List Nat) :=
  decodeWithCodec (detect_encoding b) b

/-- A decoded code point as a `Char` of the text handed to the scanner.
`errors="surrogatepass"` can produce lone surrogates, which are not
`Char`s; they are carried as `U+FFFD`.  The substitution is
acceptance-exact: the strict scanner treats a lone surrogate exactly
like any other unescaped non-special character above `0x1F` — legal
inside a string literal, "Expecting value" anywhere else — and every
`json.loads` call in the source discards the parsed value, so string
contents are never observed downstream. -/
def pointChar (n : Nat) : Char :=
  if 0xD800 ≤ n ∧ n ≤ 0xDFFF then Char.ofNat 0xFFFD else Char.ofNat n

/-- `json.loads` on bytes (CPython `json/__init__.py`): sniff the
encoding from BOMs and null-byte patterns, decode with
`errors="surrogatepass"`, then parse the text.  An undecodable input
surfaces as the uncaught `UnicodeDecodeError`; an unparsable one as
`JSONDecodeError`, which `_validate_json_content` maps to HTTP 400. -/
def jsonLoadsBytes (content : Bytes) : Except PyErr Json :=
  match pyDecodeJson content with
  | none => .error .unicodeDecodeError
  | some cps =>
    match jsonParse (cps.map pointChar) with
    | none => .error .invalidJsonFormat
    | some v => .ok v

/-- `_validate_json_content`. -/
def validate_json_content (content : Bytes) : Except PyErr Unit :=
  match jsonLoadsBytes content with
  | .error e => .error e
  | .ok _ => .ok ()

/-- `_convert_csv_to_json`. -/
def convert_csv_to_json (csv_content : Bytes) : Except PyErr Bytes :=
  match utf8Decode csv_content with
  | none => .error .invalidCsvEncoding
  | some csv_string =>
    let data := dictReaderAll (pySplitlines csv_string)
    if data.isEmpty then .error .csvEmpty
    else .ok (utf8Encode (dumps (Json.arr (data.map Json.obj))))

/-- `_is_likely_csv`. -/
def is_likely_csv (content : Bytes) (filename : Str) : Bool :=
  if ".csv".data.isSuffixOf (pyLower filename) then true
  else
    match utf8Decode (content.takeWhile (fun b => b ≠ 10)) with
    | none => false
    | some first_line =>
      first_line.contains ',' && !("\x7b\x7d[]".data.any (fun c => first_line.contains c))

/-! ## Filesystem model -/

/-- A filesystem (or remote object store): an association list from paths
to byte contents, in creation order. -/
abbrev FS := List (Str × Bytes)

/-- Overwrite-or-create a file: update the entry in place when the path
exists, append otherwise. -/
def fsWrite : FS → Str → Bytes → FS
  | [], q, c => [(q, c)]
  | e :: rest, q, c => if e.1 = q then (q, c) :: rest else e :: fsWrite rest q c

/-- Read a file if it exists. -/
def fsRead (fs : FS) (p : Str) : Option Bytes :=
  (fs.find? (fun e => e.1 = p)).map (fun e => e.2)

/-! ## Dataset providers -/

/-- `DatasetLoadResult`. -/
structure DatasetLoadResult where
  path : Str
  metadata : List (Str × Str) := []
  content : Option Bytes := none
  content_type : Str := "application/json".data
deriving DecidableEq, Repr

/-- A FastAPI `UploadFile`: a filename plus the bytes `await file.read()`
yields. -/
structure UploadFile where
  filename : Str
  content : Bytes
deriving DecidableEq, Repr

/-- The HTTP collaborator: a GET (with redirects followed) returning a
status code and a body. -/
abbrev HttpClient := Str → Nat × Bytes

/-- `LocalDatasetProvider` (`home_dir` is the resolved `_home_dir()`). -/
structure LocalDatasetProvider where
  home_dir : Str
  subdir : Str := "files".data
deriving DecidableEq, Repr

/-- `LocalDatasetProvider._namespace_dir`. -/
def LocalDatasetProvider.namespace_dir (p : LocalDatasetProvider) (ns : Str) : Str :=
  pathJoin (pathJoin (pathJoin p.home_dir ".docetl".data) ns) p.subdir

/-- `LocalDatasetProvider._write_content`. -/
def LocalDatasetProvider.write_content (p : LocalDatasetProvider) (fs : FS)
    (ns filename : Str) (content : Bytes) : Except PyErr (DatasetLoadResult × FS) := do
  let target_dir := p.namespace_dir ns
  let final_content ←
    if is_likely_csv content filename then convert_csv_to_json content
    else pure content
  let _ ← validate_json_content final_content
  let safe_name := pyReplace ".csv".data ".json".data filename
  let file_path := pathJoin target_dir safe_name
  let fs' := fsWrite fs file_path final_content
  pure ({ path := file_path
          content := some final_content
          metadata := [("provider".data, "local".data),
                       ("filename".data, safe_name),
                       ("namespace".data, ns)] }, fs')

/-- `LocalDatasetProvider._download_url`. -/
def LocalDatasetProvider.download_url (p : LocalDatasetProvider) (http : HttpClient)
    (fs : FS) (ns url : Str) : Except PyErr (DatasetLoadResult × FS) :=
  let (status, body) := http url
  if status ≠ 200 then .error (.downloadFailed status)
  else
    let seg := lastSegment url
    let filename := if seg.isEmpty then "dataset.json".data else seg
    p.write_content fs ns filename body

/-- `LocalDatasetProvider.save_upload`. -/
def LocalDatasetProvider.save_upload (p : LocalDatasetProvider) (http : HttpClient)
    (fs : FS) (ns : Str) (file : Option UploadFile) (url : Option Str) :
    Except PyErr (DatasetLoadResult × FS) :=
  if !file.isSome && !pyTruthyOptStr url then .error .fileOrUrlRequired
  else if pyTruthyOptStr url then p.download_url http fs ns (url.getD [])
  else
    match file with
    | some f => p.write_content fs ns f.filename f.content
    | none => .error .noneTypeError

/-- `LocalDatasetProvider.load_dataset` (the unused `project_id`, `subset`,
`env` and `canonical_source_id` parameters are omitted: the source throws
them away on entry). -/
def LocalDatasetProvider.load_dataset (p : LocalDatasetProvider) (http : HttpClient)
    (fs : FS) (ns : Str) (dataset_url : Option Str) (source_version_id : Option Str) :
    Except PyErr (DatasetLoadResult × FS) :=
  if pyTruthyOptStr dataset_url then
    let u := dataset_url.getD []
    if "http://".data.isPrefixOf u || "https://".data.isPrefixOf u then
      p.download_url http fs ns u
    else
      match fsRead fs u with
      | some content =>
        .ok ({ path := u
               content := some content
               metadata := [("provider".data, "local".data),
                            ("filename".data, lastSegment u)] }, fs)
      | none => .error .datasetNotFound
  else if pyTruthyOptStr source_version_id then .error .sourceVersionRequiresRT
  else .error .datasetUrlOrSourceVersionRequired

/-! ## RT (remote) dataset provider -/

/-- A stored-file reference returned by the storage client's `store_file`
(`file_ref.path`, possibly absent). -/
structure FileRef where
  path : Option Str
deriving DecidableEq, Repr

/-- Object metadata attached to a stored pipeline spec (shape of the
`upload_metadata` dict built by `RTPipelineSink.save`). -/
structure UploadMetadata where
  content_type : Str
  pipeline_id : Str
  version : Str
  owner : Option Str
  nspace : Str
deriving DecidableEq, Repr

/-- The object-storage collaborator (spec §6): a URI-get operation, a
`store_file` operation returning a file reference, and the bucket name
reachable through `storage.provider.bucket_name` (the empty string models
the `getattr` default `""`). -/
structure StorageClient where
  get_file_from_uri : Str → Bytes
  store_file_ref : Str → Str → Bytes → UploadMetadata → FileRef
  bucket_name : Str

/-- An environment layout descriptor.  Modelled from the spec: §4.2 /
§6 say `load_layout(env)` yields a bucket name and an environment path
start (`env_prefix` in the source); the resolver itself lives in
`utils/parsing/rt_storage.py`, outside the repository slice. -/
structure StorageLayout where
  bucket : Str
  envPathStart : Str

/-- Modelled from the spec: `RTStorageResolver` (§4.2, `utils.parsing.rt_storage`
is not part of the slice).  `load_layout` resolves an environment name to
a layout; `build_unstructured_sv_pre` computes the deterministic envelope
path start from the layout, the canonical source id and the source
version id.  Both are kept abstract (arbitrary functions), which makes
every theorem about them hold for any concrete external layout contract. -/
structure RTStorageResolver where
  load_layout : Option Str → StorageLayout
  build_unstructured_sv_pre : StorageLayout → Str → Str → Str

/-- `RTDatasetProvider`.  A present `storage_client` models an injected
client; `none` models the lazily-built-from-environment path collapsed to
its failure modes. -/
structure RTDatasetProvider where
  storage_client : Option StorageClient
  resolver : RTStorageResolver
  home_dir : Str
  subdir : Str := "rt".data

/-- `RTDatasetProvider._namespace_dir`. -/
def RTDatasetProvider.namespace_dir (p : RTDatasetProvider) (ns : Str) : Str :=
  pathJoin (pathJoin (pathJoin p.home_dir ".docetl".data) ns) p.subdir

/-- `RTDatasetProvider._ensure_storage`.  Modelled from the spec for the
no-injected-client path: building from `STORAGE__*` configuration either
yields a client or fails terminally (`ConfigurationError` / disabled);
both failures are collapsed into `storageDisabled`. -/
def RTDatasetProvider.ensure_storage (p : RTDatasetProvider) : Except PyErr StorageClient :=
  match p.storage_client with
  | some c => .ok c
  | none => .error .storageDisabled

/-- `RTDatasetProvider._write_bytes`. -/
def RTDatasetProvider.write_bytes (p : RTDatasetProvider) (fs : FS)
    (ns filename : Str) (content : Bytes) (metadata : List (Str × Str)) :
    Except PyErr (DatasetLoadResult × FS) :=
  let target_dir := p.namespace_dir ns
  let path := pathJoin target_dir filename
  let fs' := fsWrite fs path content
  .ok ({ path := path
         content := some content
         metadata := pyDictMerge metadata
           [("namespace".data, ns), ("provider".data, "rt".data)] }, fs')

/-- `RTDatasetProvider._download_http`. -/
def RTDatasetProvider.download_http (p : RTDatasetProvider) (http : HttpClient)
    (fs : FS) (ns url : Str) (metadata : List (Str × Str)) :
    Except PyErr (DatasetLoadResult × FS) :=
  let (status, body) := http url
  if status ≠ 200 then .error (.downloadFailed status)
  else
    let seg := lastSegment url
    let filename := if seg.isEmpty then "dataset.json".data else seg
    p.write_bytes fs ns filename body metadata

/-- `RTDatasetProvider._fetch_storage_uri`. -/
def RTDatasetProvider.fetch_storage_uri (p : RTDatasetProvider) (fs : FS)
    (ns uri : Str) (metadata : List (Str × Str)) :
    Except PyErr (DatasetLoadResult × FS) := do
  let storage ← p.ensure_storage
  let payload := storage.get_file_from_uri uri
  let seg := lastSegment uri
  let filename := if seg.isEmpty then "dataset.json".data else seg
  p.write_bytes fs ns filename payload
    (pyDictMerge metadata [("source_uri".data, uri)])

/-- `RTDatasetProvider._resolve_source_version`. -/
def RTDatasetProvider.resolve_source_version (p : RTDatasetProvider) (fs : FS)
    (ns source_version_id : Str)
    (project_id env canonical_source_id : Option Str) :
    Except PyErr (DatasetLoadResult × FS) := do
  let _ ← p.ensure_storage
  let layout := p.resolver.load_layout env
  let cid :=
    if pyTruthyOptStr canonical_source_id then canonical_source_id.getD []
    else if pyTruthyOptStr project_id then project_id.getD []
    else "document".data
  let pre := p.resolver.build_unstructured_sv_pre layout cid source_version_id
  let envelope_uri :=
    "gs://".data ++ layout.bucket ++ '/' :: pre ++ "/envelope/envelope.json".data
  p.fetch_storage_uri fs ns envelope_uri
    [("source_version_id".data, source_version_id),
     ("canonical_source_id".data, cid),
     ("env".data, if pyTruthyOptStr env then env.getD [] else pyRstrip '/' layout.envPathStart)]

/-- `RTDatasetProvider.save_upload`: uploads still land locally through a
`LocalDatasetProvider` built with this provider's home directory and
subdirectory. -/
def RTDatasetProvider.save_upload (p : RTDatasetProvider) (http : HttpClient)
    (fs : FS) (ns : Str) (file : Option UploadFile) (url : Option Str) :
    Except PyErr (DatasetLoadResult × FS) :=
  let local_provider : LocalDatasetProvider := { home_dir := p.home_dir, subdir := p.subdir }
  local_provider.save_upload http fs ns file url

/-- `RTDatasetProvider.load_dataset` (`subset` is accepted and discarded,
as in the source). -/
def RTDatasetProvider.load_dataset (p : RTDatasetProvider) (http : HttpClient)
    (fs : FS) (ns : Str) (dataset_url : Option Str) (source_version_id : Option Str)
    (project_id : Option Str) (env : Option Str) (canonical_source_id : Option Str) :
    Except PyErr (DatasetLoadResult × FS) :=
  if pyTruthyOptStr dataset_url then
    let u := dataset_url.getD []
    if "http://".data.isPrefixOf u || "https://".data.isPrefixOf u then
      p.download_http http fs ns u [("dataset_url".data, u)]
    else if "gs://".data.isPrefixOf u then
      p.fetch_storage_uri fs ns u [("dataset_url".data, u)]
    else
      match fsRead fs u with
      | some content =>
        .ok ({ path := u
               content := some content
               metadata := [("provider".data, "rt".data),
                            ("dataset_url".data, u)] }, fs)
      | none => .error .datasetNotFound
  else if pyTruthyOptStr source_version_id then
    p.resolve_source_version fs ns (source_version_id.getD []) project_id env canonical_source_id
  else .error .datasetUrlOrSourceVersionRequired

/-! ## Pipeline sinks -/

/-- A Python value as found in pipeline metadata and manifests: a string
or `None`. -/
inductive PyVal where
  | none
  | str (s : Str)
deriving DecidableEq, Repr

/-- Python truthiness of such a value. -/
def PyVal.truthy : PyVal → Bool
  | .none => false
  | .str s => !s.isEmpty

/-- `metadata.get(k)`: `None` when absent. -/
def pyGet (d : List (Str × PyVal)) (k : Str) : PyVal :=
  (pyDictFind d k).getD .none

/-- `v or dflt` where the result is used as a string. -/
def pyOrStr (v : PyVal) (dflt : Str) : Str :=
  match v with
  | .str s => if s.isEmpty then dflt else s
  | .none => dflt

/-- `PipelineSaveResult`. -/
structure PipelineSaveResult where
  path : Str
  uri : Option Str := none
  manifest : List (Str × PyVal)
  input_path : PyVal := .none
  output_path : PyVal := .none
deriving DecidableEq, Repr

/-- `LocalPipelineSink`. -/
structure LocalPipelineSink where
  home_dir : Str
deriving DecidableEq, Repr

/-- `LocalPipelineSink.save` (never fails; the `intermediates` directory
creation has no observable effect in the file model). -/
def LocalPipelineSink.save (p : LocalPipelineSink) (fs : FS)
    (ns name : Str) (yaml_str : Str) (metadata : List (Str × PyVal)) :
    PipelineSaveResult × FS :=
  let pipeline_dir := pathJoin (pathJoin (pathJoin p.home_dir ".docetl".data) ns) "pipelines".data
  let config_dir := pathJoin pipeline_dir "configs".data
  let file_path := pathJoin config_dir (name ++ ".yaml".data)
  let fs' := fsWrite fs file_path (utf8Encode yaml_str)
  ({ path := file_path
     manifest := [("pipeline_id".data, .str (pyOrStr (pyGet metadata "pipeline_id".data) name)),
                  ("version".data, .str (pyOrStr (pyGet metadata "version".data) "local".data)),
                  ("owner".data, pyGet metadata "owner".data),
                  ("sink".data, .str "local".data)]
     input_path := pyGet metadata "input_path".data
     output_path := pyGet metadata "output_path".data }, fs')

/-- `RTPipelineSink`. -/
structure RTPipelineSink where
  storage_client : Option StorageClient

/-- `RTPipelineSink._ensure_storage`, collapsed exactly like
`RTDatasetProvider.ensure_storage`. -/
def RTPipelineSink.ensure_storage (p : RTPipelineSink) : Except PyErr StorageClient :=
  match p.storage_client with
  | some c => .ok c
  | none => .error .storageDisabled

/-- The object key a spec upload goes to.  Modelled from the spec: §4.4
says the remote sink uploads to `specs/docetl/<pipeline_id>/<version>.yaml`,
i.e. the storage client stores `store_file(document_id, filename, ...)`
under `<document_id>/<filename>`. -/
def rtSpecKey (pipeline_id version : Str) : Str :=
  "specs/docetl/".data ++ pipeline_id ++ '/' :: version ++ ".yaml".data

/-- `RTPipelineSink.save`.  The two clock reads of the source
(`datetime.now(timezone.utc).strftime("%Y%m%d%H%M%S")` and
`datetime.now(timezone.utc).isoformat()`) are passed in as the already
formatted strings `now_compact` and `now_iso`.  `remote` is the remote
object store, updated at the computed object key (spec §4.4). -/
def RTPipelineSink.save (p : RTPipelineSink) (remote : FS)
    (now_compact now_iso : Str) (ns name : Str) (yaml_str : Str)
    (metadata : List (Str × PyVal)) : Except PyErr (PipelineSaveResult × FS) := do
  let storage ← p.ensure_storage
  let pipeline_id := pyOrStr (pyGet metadata "pipeline_id".data) name
  let version := pyOrStr (pyGet metadata "version".data) now_compact
  let owner := pyGet metadata "owner".data
  let keyStart := "specs/docetl/".data ++ pipeline_id
  let filename := version ++ ".yaml".data
  let upload_metadata : UploadMetadata :=
    { content_type := "text/yaml".data
      pipeline_id := pipeline_id
      version := version
      owner := match owner with | .str s => some s | .none => none
      nspace := ns }
  let file_ref := storage.store_file_ref keyStart filename (utf8Encode yaml_str) upload_metadata
  let remote' := fsWrite remote (rtSpecKey pipeline_id version) (utf8Encode yaml_str)
  let bucket := storage.bucket_name
  let persisted_path :=
    match file_ref.path with
    | some q => if q.isEmpty then pathJoin keyStart filename else q
    | none => pathJoin keyStart filename
  let uri :=
    if bucket.isEmpty then persisted_path
    else "gs://".data ++ bucket ++ '/' :: persisted_path
  .ok ({ path := uri
         uri := some uri
         manifest := [("pipeline_id".data, .str pipeline_id),
                      ("version".data, .str version),
                      ("owner".data, owner),
                      ("sink".data, .str "rt".data),
                      ("uri".data, .str uri),
                      ("saved_at".data, .str now_iso)]
         input_path := pyGet metadata "input_path".data
         output_path := pyGet metadata "output_path".data }, remote')

/-! ## Derived checkers used to state the spec's data-model invariant -/

/-- Do the bytes parse as a JSON array whose elements are all objects? -/
def isJsonArrayOfObjects (b : Bytes) : Bool :=
  match utf8Decode b with
  | none => false
  | some s =>
    match jsonParse s with
    | some (Json.arr xs) =>
      xs.all (fun x => match x with | Json.obj _ => true | _ => false)
    | _ => false

/-- Are the bytes JSON Lines: every non-blank line parses as JSON? -/
def isJsonLines (b : Bytes) : Bool :=
  match utf8Decode b with
  | none => false
  | some s =>
    (pySplitlines s).all (fun line => line.all jsonWS || (jsonParse line).isSome)

/-- The well-formedness disjunction of spec §3. -/
def wellFormedJsonFile (b : Bytes) : Bool :=
  isJsonArrayOfObjects b || isJsonLines b

/-- Success test on an `Except` outcome. -/
def exceptIsOk {α : Type} : Except PyErr α → Bool
  | .ok _ => true
  | .error _ => false

/-! ## Concrete collaborators used in counterexamples and witnesses -/

/-- An HTTP client that is never consulted on the paths under test. -/
def httpDummy : HttpClient := fun _ => (0, [])

/-- An HTTP client answering 200 with the JSON body `[1, 2]`. -/
def httpOk200 : HttpClient := fun _ => (200, utf8Encode "[1, 2]".data)

/-- A storage client with no bucket that stores nothing of interest. -/
def storageDummy : StorageClient :=
  { get_file_from_uri := fun _ => []
    store_file_ref := fun _ _ _ _ => { path := none }
    bucket_name := [] }

/-- A storage client whose URI-get always returns the CSV bytes
`a,b\n1,2`. -/
def storageCsv : StorageClient :=
  { get_file_from_uri := fun _ => utf8Encode "a,b\n1,2".data
    store_file_ref := fun _ _ _ _ => { path := none }
    bucket_name := [] }

/-- A layout resolver with a fixed one-bucket layout. -/
def resolverDummy : RTStorageResolver :=
  { load_layout := fun _ => { bucket := "bkt".data, envPathStart := "env/".data }
    build_unstructured_sv_pre := fun layout cid svid =>
      layout.envPathStart ++ cid ++ '/' :: svid }

/-- Projection of a successful dataset outcome. -/
def resultOfOk : Except PyErr (DatasetLoadResult × FS) → Option DatasetLoadResult
  | .ok (r, _) => some r
  | .error _ => none

/-- Projection of the filesystem of a successful dataset outcome. -/
def fsOfOk : Except PyErr (DatasetLoadResult × FS) → Option FS
  | .ok (_, fs) => some fs
  | .error _ => none

/-- Projection of a successful pipeline-save outcome. -/
def pipelineResultOfOk : Except PyErr (PipelineSaveResult × FS) → Option PipelineSaveResult
  | .ok (r, _) => some r
  | .error _ => none

/-- Projection of the remote store of a successful pipeline-save outcome. -/
def pipelineFsOfOk : Except PyErr (PipelineSaveResult × FS) → Option FS
  | .ok (_, fs) => some fs
  | .error _ => none

/-! ## Basic lemmas about the filesystem and dictionary models -/

theorem fsRead_fsWrite_self (fs : FS) (q : Str) (c : Bytes) :
    fsRead (fsWrite fs q c) q = some c := by
  induction fs with
  | nil => simp [fsWrite, fsRead, List.find?]
  | cons e rest ih =>
    by_cases he : e.1 = q
    · simp [fsWrite, he, fsRead, List.find?]
    · simpa [fsWrite, he, fsRead, List.find?] using ih

theorem fsRead_fsWrite_ne (fs : FS) (q q' : Str) (c : Bytes) (h : q' ≠ q) :
    fsRead (fsWrite fs q c) q' = fsRead fs q' := by
  have h' : ¬(q = q') := fun hh => h hh.symm
  induction fs with
  | nil => simp [fsWrite, fsRead, List.find?, h']
  | cons e rest ih =>
    obtain ⟨a, b⟩ := e
    by_cases he : a = q
    · subst he
      have hne : ¬(a = q') := h'
      simp [fsWrite, fsRead, List.find?, h', hne]
    · by_cases he' : a = q'
      · simp [fsWrite, he, fsRead, List.find?, he', h', h]
      · simpa [fsWrite, he, fsRead, List.find?, he'] using ih

theorem pyOrStr_of_not_truthy {v : PyVal} (h : v.truthy = false) (d : Str) :
    pyOrStr v d = d := by
  cases v with
  | none => rfl
  | str s =>
    simp only [PyVal.truthy, Bool.not_eq_false'] at h
    simp [pyOrStr, h]

/-! ## Round trip of `json.dumps` through `json.loads`

These lemmas cover the values `_convert_csv_to_json` produces: arrays of
objects whose keys and values are strings of "simple" characters —
printable ASCII with no `"` or `\` (exactly the fragment where
`json.dumps` emits a character verbatim). -/

/-- Pure-ASCII strings. -/
def allAscii (s : Str) : Bool := s.all (fun c => c.toNat < 0x80)

set_option maxHeartbeats 2000000 in
theorem utf8Decode_encode_ascii {s : Str} (h : allAscii s = true) :
    utf8Decode (utf8Encode s) = some s := by
  induction s with
  | nil => rfl
  | cons c rest ih =>
    simp only [allAscii, List.all_cons, Bool.and_eq_true, decide_eq_true_eq] at h
    obtain ⟨hc, hrest⟩ := h
    have henc : utf8EncodeChar c = [c.toNat] := by simp [utf8EncodeChar, hc]
    rw [utf8Encode, henc, List.cons_append, List.nil_append, utf8Decode.eq_def]
    simp only [hc, if_pos]
    rw [ih (by simpa [allAscii] using hrest), Char.ofNat_toNat]
    rfl

theorem write_content_spec (p : LocalDatasetProvider) (fs : FS) (ns filename : Str)
    (content final : Bytes)
    (hfinal : (if is_likely_csv content filename then convert_csv_to_json content
               else pure content) = Except.ok final)
    (hvalid : validate_json_content final = .ok ()) :
    p.write_content fs ns filename content = .ok
      ({ path := pathJoin (p.namespace_dir ns)
           (pyReplace ".csv".data ".json".data filename)
         content := some final
         metadata := [("provider".data, "local".data),
                      ("filename".data, pyReplace ".csv".data ".json".data filename),
                      ("namespace".data, ns)] },
       fsWrite fs
         (pathJoin (p.namespace_dir ns) (pyReplace ".csv".data ".json".data filename))
         final) := by
  unfold LocalDatasetProvider.write_content
  by_cases hc : is_likely_csv content filename = true
  · rw [if_pos hc] at hfinal
    simp only [hc, if_true]
    rw [hfinal]
    simp [Bind.bind, Except.bind, hvalid, Pure.pure, Except.pure]
  · rw [if_neg hc] at hfinal
    have hcf : content = final := by
      simpa [Pure.pure, Except.pure] using hfinal
    subst hcf
    simp only [hc, Bool.false_eq_true, if_false]
    simp [Bind.bind, Except.bind, hvalid, Pure.pure, Except.pure]

theorem write_content_ok_elim {p : LocalDatasetProvider} {fs : FS} {ns filename : Str}
    {content : Bytes} {r : DatasetLoadResult} {fs' : FS}
    (h : p.write_content fs ns filename content = .ok (r, fs')) :
    ∃ final, validate_json_content final = .ok () ∧
      r.path = pathJoin (p.namespace_dir ns)
        (pyReplace ".csv".data ".json".data filename) ∧
      r.content = some final ∧ fs' = fsWrite fs r.path final ∧
      r.metadata = [("provider".data, "local".data),
                    ("filename".data, pyReplace ".csv".data ".json".data filename),
                    ("namespace".data, ns)] := by
  unfold LocalDatasetProvider.write_content at h
  simp only [Bind.bind, Except.bind, Pure.pure, Except.pure] at h
  split at h
  · split at h
    · simp at h
    · rename_i final heq
      split at h
      · simp at h
      · rename_i u heq2
        simp only [Except.ok.injEq, Prod.mk.injEq] at h
        obtain ⟨hr, hfs⟩ := h
        subst hr
        exact ⟨final, by simpa using heq2, rfl, rfl, hfs.symm, rfl⟩
  · split at h
    · simp at h
    · rename_i u heq2
      simp only [Except.ok.injEq, Prod.mk.injEq] at h
      obtain ⟨hr, hfs⟩ := h
      subst hr
      exact ⟨content, by simpa using heq2, rfl, rfl, hfs.symm, rfl⟩

/-- `_convert_csv_to_json` can only fail with its own two errors. -/
theorem convert_csv_err {content : Bytes} {e : PyErr}
    (h : convert_csv_to_json content = .error e) :
    e = .invalidCsvEncoding ∨ e = .csvEmpty := by
  unfold convert_csv_to_json at h
  split at h
  · simp only [Except.error.injEq] at h
    exact Or.inl h.symm
  · rename_i s hdec
    dsimp only at h
    by_cases hemp : (dictReaderAll (pySplitlines s)).isEmpty = true
    · rw [if_pos hemp] at h
      simp only [Except.error.injEq] at h
      exact Or.inr h.symm
    · rw [if_neg hemp] at h
      simp at h

/-- `_validate_json_content` can only fail with its own two errors. -/
theorem validate_json_err {content : Bytes} {e : PyErr}
    (h : validate_json_content content = .error e) :
    e = .unicodeDecodeError ∨ e = .invalidJsonFormat := by
  unfold validate_json_content at h
  split at h
  · rename_i e2 heq
    simp only [Except.error.injEq] at h
    subst h
    unfold jsonLoadsBytes at heq
    split at heq
    · simp only [Except.error.injEq] at heq
      exact Or.inl heq.symm
    · split at heq
      · simp only [Except.error.injEq] at heq
        exact Or.inr heq.symm
      · simp at heq
  · simp at h

/-- Errors `_write_content` can produce: never the missing-argument one. -/
theorem write_content_ne_fileOrUrlRequired (p : LocalDatasetProvider) (fs : FS)
    (ns filename : Str) (content : Bytes) :
    p.write_content fs ns filename content ≠ .error .fileOrUrlRequired := by
  intro h
  unfold LocalDatasetProvider.write_content at h
  simp only [Bind.bind, Except.bind, Pure.pure, Except.pure] at h
  split at h
  · split at h
    · rename_i e heq
      simp only [Except.error.injEq] at h
      subst h
      rcases convert_csv_err heq with hh | hh <;> exact PyErr.noConfusion hh
    · split at h
      · rename_i e heq2
        simp only [Except.error.injEq] at h
        subst h
        rcases validate_json_err heq2 with hh | hh <;> exact PyErr.noConfusion hh
      · simp at h
  · split at h
    · rename_i e heq2
      simp only [Except.error.injEq] at h
      subst h
      rcases validate_json_err heq2 with hh | hh <;> exact PyErr.noConfusion hh
    · simp at h

/-- C7 : for all content not classified as CSV whose bytes sniff as
`utf-8` under `json.detect_encoding`, `_write_content` (the
normalization entry point) fails with the uncaught `UnicodeDecodeError`
(the spec's `EncodingError`) when the content is undecodable as UTF-8
with `errors="surrogatepass"`, and with the HTTP-400 "Invalid JSON
format" failure (the spec's `FormatError`) when it decodes but does not
parse as JSON.  The encoding-sniff hypothesis is necessary: content
carrying a UTF-16/32 BOM or null-byte pattern is decoded under that
codec instead, so invalid UTF-8 can validate successfully — see the
counterexample. -/
theorem C7_non_csv_normalization_errors (p : LocalDatasetProvider) (fs : FS)
    (ns filename : Str) (content : Bytes)
    (hcsv : is_likely_csv content filename = false)
    (hdet : detect_encoding content = .utf8) :
    (utf8SPDecode content = none →
      p.write_content fs ns filename content = .error .unicodeDecodeError) ∧
    (∀ cps, utf8SPDecode content = some cps → jsonParse (cps.map pointChar) = none →
      p.write_content fs ns filename content = .error .invalidJsonFormat) := by
  have hpd : pyDecodeJson content = utf8SPDecode content := by
    unfold pyDecodeJson
    rw [hdet]
    rfl
  constructor
  · intro hdec
    have hval : validate_json_content content = .error .unicodeDecodeError := by
      unfold validate_json_content jsonLoadsBytes
      rw [hpd, hdec]
    unfold LocalDatasetProvider.write_content
    simp [hcsv, Bind.bind, Except.bind, Pure.pure, Except.pure, hval]
  · intro cps hdec hparse
    have hval : validate_json_content content = .error .invalidJsonFormat := by
      unfold validate_json_content jsonLoadsBytes
      rw [hpd, hdec]
      simp only [hparse]
    unfold LocalDatasetProvider.write_content
    simp [hcsv, Bind.bind, Except.bind, Pure.pure, Except.pure, hval]

/-- C7 witness: the two error modes at concrete non-CSV inputs that
sniff as `utf-8` — the lone byte `0x80` (undecodable even with
`surrogatepass`) and the text `hello` (decodable, invalid JSON). -/
theorem C7_non_csv_normalization_errors_witness :
    (is_likely_csv [0x80] "x.json".data = false ∧
      LocalDatasetProvider.write_content ⟨"/h".data, "files".data⟩ [] "ns".data
        "x.json".data [0x80] = .error .unicodeDecodeError) ∧
    (is_likely_csv (utf8Encode "hello".data) "x.json".data = false ∧
      LocalDatasetProvider.write_content ⟨"/h".data, "files".data⟩ [] "ns".data
        "x.json".data (utf8Encode "hello".data) = .error .invalidJsonFormat) := by
  constructor
  · exact ⟨by rfl,
      (C7_non_csv_normalization_errors ⟨"/h".data, "files".data⟩ [] "ns".data
        "x.json".data [0x80] (by rfl) (by rfl)).1 (by rfl)⟩
  · exact ⟨by rfl,
      (C7_non_csv_normalization_errors ⟨"/h".data, "files".data⟩ [] "ns".data
        "x.json".data (utf8Encode "hello".data) (by rfl) (by rfl)).2
        ("hello".data.map Char.toNat) (by rfl) (by rfl)⟩

/-- C7 counterexample: `b"\xff\xfe1\x00"` is invalid UTF-8 and is not
classified as CSV, yet normalization succeeds — `json.loads` sniffs the
UTF-16 little-endian BOM, decodes the payload to the text `1`, and the
parse succeeds, so no error is raised and `_write_content` stores the
bytes. -/
theorem C7_counterexample :
    utf8Decode [0xFF, 0xFE, 0x31, 0x00] = none ∧
    is_likely_csv [0xFF, 0xFE, 0x31, 0x00] "d.json".data = false ∧
    validate_json_content [0xFF, 0xFE, 0x31, 0x00] = .ok () ∧
    exceptIsOk (LocalDatasetProvider.write_content ⟨"/h".data, "files".data⟩ []
      "ns".data "d.json".data [0xFF, 0xFE, 0x31, 0x00]) = true := ⟨rfl, rfl, rfl, rfl⟩

/-! ### `save_upload` structure -/

theorem validate_ok_elim {c : Bytes} (h : validate_json_content c = .ok ()) :
    ∃ v, jsonLoadsBytes c = .ok v := by
  unfold validate_json_content at h
  split at h
  · simp at h
  · rename_i v heq
    exact ⟨v, heq⟩

theorem download_url_ok_elim {p : LocalDatasetProvider} {http : HttpClient} {fs : FS}
    {ns url : Str} {r : DatasetLoadResult} {fs' : FS}
    (h : p.download_url http fs ns url = .ok (r, fs')) :
    ∃ filename, p.write_content fs ns filename (http url).2 = .ok (r, fs') := by
  unfold LocalDatasetProvider.download_url at h
  rcases hhttp : http url with ⟨st, body⟩
  rw [hhttp] at h
  dsimp only at h
  by_cases hst : st ≠ 200
  · rw [if_pos hst] at h
    simp at h
  · rw [if_neg hst] at h
    exact ⟨_, h⟩

theorem download_url_ne_fileOrUrlRequired (p : LocalDatasetProvider) (http : HttpClient)
    (fs : FS) (ns url : Str) :
    p.download_url http fs ns url ≠ .error .fileOrUrlRequired := by
  intro h
  unfold LocalDatasetProvider.download_url at h
  rcases hhttp : http url with ⟨st, body⟩
  rw [hhttp] at h
  dsimp only at h
  by_cases hst : st ≠ 200
  · rw [if_pos hst] at h
    simp only [Except.error.injEq] at h
    exact PyErr.noConfusion h
  · rw [if_neg hst] at h
    exact write_content_ne_fileOrUrlRequired _ _ _ _ _ h

theorem save_upload_ok_elim {p : LocalDatasetProvider} {http : HttpClient} {fs : FS}
    {ns : Str} {file : Option UploadFile} {url : Option Str}
    {r : DatasetLoadResult} {fs' : FS}
    (h : p.save_upload http fs ns file url = .ok (r, fs')) :
    ∃ c, fsRead fs' r.path = some c ∧ r.content = some c ∧
      ∃ v, jsonLoadsBytes c = .ok v := by
  have hwc : ∃ filename content, p.write_content fs ns filename content = .ok (r, fs') := by
    unfold LocalDatasetProvider.save_upload at h
    split at h
    · simp at h
    · split at h
      · obtain ⟨filename, hw⟩ := download_url_ok_elim h
        exact ⟨filename, _, hw⟩
      · split at h
        · exact ⟨_, _, h⟩
        · simp at h
  obtain ⟨filename, content, hw⟩ := hwc
  obtain ⟨final, hvalid, hpath, hcontent, hfs, _⟩ := write_content_ok_elim hw
  obtain ⟨v, hv⟩ := validate_ok_elim hvalid
  subst hfs
  exact ⟨final, fsRead_fsWrite_self _ _ _, hcontent, v, hv⟩

/-- C1 : after any successful `save_upload` — local or RT variant — the
file at the returned path exists in the filesystem, its bytes equal the
returned `content`, and they parse as a JSON document under `json.loads`
(the validated invariant; `load_dataset` does not guarantee it, see the
counterexample). -/
theorem C1_save_upload_validated (lp : LocalDatasetProvider) (rp : RTDatasetProvider)
    (http : HttpClient) (fs : FS) (ns : Str) (file : Option UploadFile)
    (url : Option Str) :
    (∀ r fs', lp.save_upload http fs ns file url = .ok (r, fs') →
      ∃ c, fsRead fs' r.path = some c ∧ r.content = some c ∧
        ∃ v, jsonLoadsBytes c = .ok v) ∧
    (∀ r fs', rp.save_upload http fs ns file url = .ok (r, fs') →
      ∃ c, fsRead fs' r.path = some c ∧ r.content = some c ∧
        ∃ v, jsonLoadsBytes c = .ok v) := by
  constructor
  · intro r fs' h
    exact save_upload_ok_elim h
  · intro r fs' h
    have h' : LocalDatasetProvider.save_upload ⟨rp.home_dir, rp.subdir⟩ http fs ns
        file url = .ok (r, fs') := h
    exact save_upload_ok_elim h'

/-- C1 witness: a concrete upload of the JSON text `[1, 2]` through the
local variant lands validated on disk. -/
theorem C1_save_upload_validated_witness :
    ∃ c, fsRead [(pathJoin (LocalDatasetProvider.namespace_dir ⟨"/h".data, "files".data⟩
        "ns".data) "d.json".data, utf8Encode "[1, 2]".data)]
      (pathJoin (LocalDatasetProvider.namespace_dir ⟨"/h".data, "files".data⟩ "ns".data)
        "d.json".data) = some c ∧
      (some (utf8Encode "[1, 2]".data) : Option Bytes) = some c ∧
      ∃ v, jsonLoadsBytes c = .ok v := by
  have h := (C1_save_upload_validated ⟨"/h".data, "files".data⟩
      ⟨some storageDummy, resolverDummy, "/h".data, "rt".data⟩ httpDummy [] "ns".data
      (some ⟨"d.json".data, utf8Encode "[1, 2]".data⟩) none).1
    { path := pathJoin (LocalDatasetProvider.namespace_dir ⟨"/h".data, "files".data⟩
        "ns".data) "d.json".data
      content := some (utf8Encode "[1, 2]".data)
      metadata := [("provider".data, "local".data), ("filename".data, "d.json".data),
                   ("namespace".data, "ns".data)] }
    [(pathJoin (LocalDatasetProvider.namespace_dir ⟨"/h".data, "files".data⟩ "ns".data)
        "d.json".data, utf8Encode "[1, 2]".data)] (by rfl)
  obtain ⟨c, h1, h2, h3⟩ := h
  exact ⟨c, h1, h2, h3⟩

/-- C1 counterexample: neither half of the claimed invariant survives as
stated.  The local `load_dataset` on an existing local path returns
successfully although the file contents (`hello \x7b`) are not JSON at
all; and `save_upload` accepts and stores the two-line document
`[1,\n2]`, which `json.loads` parses but which is neither a JSON array
of objects nor JSON Lines (its first line `[1,` does not parse). -/
theorem C1_counterexample :
    (LocalDatasetProvider.load_dataset ⟨"/h".data, "files".data⟩ httpDummy
        [("/d/x".data, utf8Encode "hello \x7b".data)] "ns".data (some "/d/x".data) none =
      .ok ({ path := "/d/x".data
             content := some (utf8Encode "hello \x7b".data)
             metadata := [("provider".data, "local".data), ("filename".data, "x".data)] },
           [("/d/x".data, utf8Encode "hello \x7b".data)]) ∧
     wellFormedJsonFile (utf8Encode "hello \x7b".data) = false) ∧
    (exceptIsOk (LocalDatasetProvider.save_upload ⟨"/h".data, "files".data⟩ httpDummy []
        "ns".data (some ⟨"d.json".data, utf8Encode "[1,\n2]".data⟩) none) = true ∧
     wellFormedJsonFile (utf8Encode "[1,\n2]".data) = false) :=
  ⟨⟨rfl, rfl⟩, rfl, rfl⟩

/-- C2 : `save_upload` fails with the missing-argument error exactly when
neither a truthy file nor a truthy url is supplied; in particular, when
both are supplied there is no such failure — the url takes precedence. -/
theorem C2_save_upload_invalid_argument_iff (p : LocalDatasetProvider)
    (http : HttpClient) (fs : FS) (ns : Str) (file : Option UploadFile)
    (url : Option Str) :
    p.save_upload http fs ns file url = .error .fileOrUrlRequired ↔
      file.isNone = true ∧ pyTruthyOptStr url = false := by
  unfold LocalDatasetProvider.save_upload
  constructor
  · intro h
    split at h
    · rename_i hguard
      simp only [Bool.and_eq_true, Bool.not_eq_true'] at hguard
      obtain ⟨hf, hu⟩ := hguard
      refine ⟨?_, hu⟩
      cases file with
      | none => rfl
      | some f => simp at hf
    · split at h
      · exact absurd h (download_url_ne_fileOrUrlRequired _ _ _ _ _)
      · split at h
        · exact absurd h (write_content_ne_fileOrUrlRequired _ _ _ _ _)
        · simp at h
  · intro ⟨hf, hu⟩
    have hnone : file = none := Option.isNone_iff_eq_none.mp hf
    subst hnone
    have hguard : (!Option.isSome (none : Option UploadFile) &&
        !pyTruthyOptStr url) = true := by
      simp [hu]
    rw [if_pos hguard]

/-- C2 counterexample: supplying both a file and a url succeeds — the
claim's "fails when both are set" is false; the url wins. -/
theorem C2_counterexample :
    exceptIsOk (LocalDatasetProvider.save_upload ⟨"/h".data, "files".data⟩ httpOk200 []
      "ns".data (some ⟨"d.json".data, utf8Encode "1".data⟩)
      (some "http://x/y.json".data)) = true := rfl

/-- C6 : every successful `_write_content` stores under the filename
obtained by replacing every occurrence of `.csv` in the original filename
by `.json` (so non-`.csv`-extension names containing `.csv` are changed
too, and `.csv` extensions are rewritten wherever they occur). -/
theorem C6_filename_rewrite (p : LocalDatasetProvider) (fs : FS) (ns filename : Str)
    (content : Bytes) (r : DatasetLoadResult) (fs' : FS)
    (h : p.write_content fs ns filename content = .ok (r, fs')) :
    r.path = pathJoin (p.namespace_dir ns)
      (pyReplace ".csv".data ".json".data filename) ∧
    pyDictFind r.metadata "filename".data =
      some (pyReplace ".csv".data ".json".data filename) := by
  obtain ⟨final, _, hpath, _, _, hmeta⟩ := write_content_ok_elim h
  refine ⟨hpath, ?_⟩
  rw [hmeta]
  rfl

/-- C6 witness: a concrete write under the name `d.json` keeps the name
(and `a.csv` would become `a.json`). -/
theorem C6_filename_rewrite_witness :
    (resultOfOk (LocalDatasetProvider.write_content ⟨"/h".data, "files".data⟩ []
        "ns".data "d.json".data (utf8Encode "[1, 2]".data))).map
      (fun r => r.path) =
      some (pathJoin (LocalDatasetProvider.namespace_dir ⟨"/h".data, "files".data⟩
        "ns".data) (pyReplace ".csv".data ".json".data "d.json".data)) := by
  have h := C6_filename_rewrite ⟨"/h".data, "files".data⟩ [] "ns".data "d.json".data
    (utf8Encode "[1, 2]".data)
    { path := pathJoin (LocalDatasetProvider.namespace_dir ⟨"/h".data, "files".data⟩
        "ns".data) "d.json".data
      content := some (utf8Encode "[1, 2]".data)
      metadata := [("provider".data, "local".data), ("filename".data, "d.json".data),
                   ("namespace".data, "ns".data)] }
    [(pathJoin (LocalDatasetProvider.namespace_dir ⟨"/h".data, "files".data⟩ "ns".data)
        "d.json".data, utf8Encode "[1, 2]".data)] (by rfl)
  show some (DatasetLoadResult.path
      { path := pathJoin (LocalDatasetProvider.namespace_dir ⟨"/h".data, "files".data⟩
          "ns".data) "d.json".data
        content := some (utf8Encode "[1, 2]".data)
        metadata := [("provider".data, "local".data), ("filename".data, "d.json".data),
                     ("namespace".data, "ns".data)] }) = _
  rw [h.1]

/-- C6 counterexample: the filename `notes.csv.bak` has no `.csv`
extension, yet materialization stores it changed, as `notes.json.bak`. -/
theorem C6_counterexample :
    ".csv".data.isSuffixOf (pyLower "notes.csv.bak".data) = false ∧
    (resultOfOk (LocalDatasetProvider.write_content ⟨"/h".data, "files".data⟩ []
        "ns".data "notes.csv.bak".data (utf8Encode "[1, 2]".data))).map
      (fun r => pyDictFind r.metadata "filename".data) =
      some (some "notes.json.bak".data) ∧
    "notes.json.bak".data ≠ "notes.csv.bak".data := ⟨rfl, rfl, by decide⟩

/-- C4 : the local pipeline sink's manifest version is
`metadata.version` when that is truthy and the literal `"local"`
otherwise; repeated saves of the same `(namespace, name)` write the same
file path, the second overwriting the first's content. -/
theorem C4_local_sink_version_and_overwrite (p : LocalPipelineSink) (fs : FS)
    (ns name y1 : Str) (m1 : List (Str × PyVal)) (y2 : Str)
    (m2 : List (Str × PyVal)) :
    pyDictFind (p.save fs ns name y1 m1).1.manifest "version".data =
      some (.str (pyOrStr (pyGet m1 "version".data) "local".data)) ∧
    (p.save fs ns name y1 m1).1.path =
      (p.save (p.save fs ns name y1 m1).2 ns name y2 m2).1.path ∧
    fsRead (p.save (p.save fs ns name y1 m1).2 ns name y2 m2).2
      (p.save (p.save fs ns name y1 m1).2 ns name y2 m2).1.path =
      some (utf8Encode y2) := by
  refine ⟨rfl, rfl, ?_⟩
  exact fsRead_fsWrite_self _ _ _

/-- C4 counterexample: metadata supplying `version = "v1"` makes the
local sink's manifest report `"v1"`, not the literal `"local"`. -/
theorem C4_counterexample :
    pyDictFind (LocalPipelineSink.save ⟨"/h".data⟩ [] "ns".data "p1".data "cfg".data
      [("version".data, PyVal.str "v1".data)]).1.manifest "version".data =
      some (PyVal.str "v1".data) ∧
    PyVal.str "v1".data ≠ PyVal.str "local".data := ⟨rfl, by decide⟩

/-- C9 : the RT provider's `save_upload` is exactly a local provider's
`save_upload` run with the RT provider's home directory and
subdirectory — for every input the results agree, and neither the
storage client nor the layout resolver is consulted (the right-hand side
does not mention them). -/
theorem C9_rt_save_upload_delegates (storage : Option StorageClient)
    (resolver : RTStorageResolver) (home subdir : Str) (http : HttpClient)
    (fs : FS) (ns : Str) (file : Option UploadFile) (url : Option Str) :
    RTDatasetProvider.save_upload ⟨storage, resolver, home, subdir⟩ http fs ns file url =
      LocalDatasetProvider.save_upload ⟨home, subdir⟩ http fs ns file url := rfl

/-- C9 counterexample: with the providers as constructed by the source
(`files` vs `rt` default subdirectories), the same upload materializes at
different paths, so the resulting `DatasetLoadResult`s are not equal. -/
theorem C9_counterexample :
    resultOfOk (LocalDatasetProvider.save_upload ⟨"/h".data, "files".data⟩ httpDummy []
        "ns".data (some ⟨"d.json".data, utf8Encode "[1, 2]".data⟩) none) ≠
      resultOfOk (RTDatasetProvider.save_upload
        ⟨some storageDummy, resolverDummy, "/h".data, "rt".data⟩ httpDummy []
        "ns".data (some ⟨"d.json".data, utf8Encode "[1, 2]".data⟩) none) := by
  decide

/-! ### RT pipeline sink structure -/

theorem rtSpecKey_inj_version {pid v1 v2 : Str} (h : rtSpecKey pid v1 = rtSpecKey pid v2) :
    v1 = v2 := by
  unfold rtSpecKey at h
  have h2 := List.append_cancel_right h
  have h3 := List.append_cancel_left h2
  injection h3

/-- What one successful RT pipeline save does: it stores the YAML bytes
at the spec key derived from the pipeline id and the version, and reports
that version in the manifest. -/
theorem rt_save_spec (p : RTPipelineSink) (storage : StorageClient)
    (hs : p.storage_client = some storage) (remote : FS)
    (now_compact now_iso ns name yaml_str : Str) (m : List (Str × PyVal)) :
    ∃ r, p.save remote now_compact now_iso ns name yaml_str m =
        .ok (r, fsWrite remote
          (rtSpecKey (pyOrStr (pyGet m "pipeline_id".data) name)
            (pyOrStr (pyGet m "version".data) now_compact))
          (utf8Encode yaml_str)) ∧
      pyDictFind r.manifest "version".data =
        some (.str (pyOrStr (pyGet m "version".data) now_compact)) := by
  have hens : p.ensure_storage = .ok storage := by
    unfold RTPipelineSink.ensure_storage
    rw [hs]
  unfold RTPipelineSink.save
  rw [hens]
  simp only [Bind.bind, Except.bind, Pure.pure, Except.pure]
  exact ⟨_, rfl, rfl⟩

/-- C5 : for the remote pipeline sink, two saves of the same
`(namespace, name)` with no truthy `version` in the metadata, made at
clock readings whose compact UTC timestamps differ, produce distinct
version strings and distinct object keys, and the second save does not
overwrite the first: both objects are present afterwards.  (The
timestamp-difference hypothesis is necessary: see the counterexample.) -/
theorem C5_rt_sink_distinct_versions (p : RTPipelineSink) (storage : StorageClient)
    (hs : p.storage_client = some storage) (remote : FS) (ns name y1 y2 : Str)
    (m : List (Str × PyVal)) (now1 iso1 now2 iso2 : Str)
    (hv : (pyGet m "version".data).truthy = false) (hne : now1 ≠ now2) :
    ∃ r1 rem1 r2 rem2,
      p.save remote now1 iso1 ns name y1 m = .ok (r1, rem1) ∧
      p.save rem1 now2 iso2 ns name y2 m = .ok (r2, rem2) ∧
      pyDictFind r1.manifest "version".data = some (.str now1) ∧
      pyDictFind r2.manifest "version".data = some (.str now2) ∧
      PyVal.str now1 ≠ PyVal.str now2 ∧
      rtSpecKey (pyOrStr (pyGet m "pipeline_id".data) name) now1 ≠
        rtSpecKey (pyOrStr (pyGet m "pipeline_id".data) name) now2 ∧
      fsRead rem2 (rtSpecKey (pyOrStr (pyGet m "pipeline_id".data) name) now1) =
        some (utf8Encode y1) ∧
      fsRead rem2 (rtSpecKey (pyOrStr (pyGet m "pipeline_id".data) name) now2) =
        some (utf8Encode y2) := by
  have hver1 : pyOrStr (pyGet m "version".data) now1 = now1 := pyOrStr_of_not_truthy hv _
  have hver2 : pyOrStr (pyGet m "version".data) now2 = now2 := pyOrStr_of_not_truthy hv _
  obtain ⟨r1, hsave1, hman1⟩ := rt_save_spec p storage hs remote now1 iso1 ns name y1 m
  rw [hver1] at hsave1 hman1
  obtain ⟨r2, hsave2, hman2⟩ := rt_save_spec p storage hs
    (fsWrite remote (rtSpecKey (pyOrStr (pyGet m "pipeline_id".data) name) now1)
      (utf8Encode y1)) now2 iso2 ns name y2 m
  rw [hver2] at hsave2 hman2
  have hkeys : rtSpecKey (pyOrStr (pyGet m "pipeline_id".data) name) now1 ≠
      rtSpecKey (pyOrStr (pyGet m "pipeline_id".data) name) now2 :=
    fun hk => hne (rtSpecKey_inj_version hk)
  refine ⟨r1, _, r2, _, hsave1, hsave2, hman1, hman2, by simp [hne], hkeys, ?_, ?_⟩
  · rw [fsRead_fsWrite_ne _ _ _ _ hkeys]
    exact fsRead_fsWrite_self _ _ _
  · exact fsRead_fsWrite_self _ _ _

/-- C5 witness: two saves at `20250101000000` and `20250101000001`
produce the distinct versions and keys. -/
theorem C5_rt_sink_distinct_versions_witness :
    ∃ r1 rem1 r2 rem2,
      RTPipelineSink.save ⟨some storageDummy⟩ [] "20250101000000".data "i1".data
        "ns".data "p1".data "c1".data [] = .ok (r1, rem1) ∧
      RTPipelineSink.save ⟨some storageDummy⟩ rem1 "20250101000001".data "i2".data
        "ns".data "p1".data "c2".data [] = .ok (r2, rem2) ∧
      pyDictFind r1.manifest "version".data = some (.str "20250101000000".data) ∧
      pyDictFind r2.manifest "version".data = some (.str "20250101000001".data) ∧
      PyVal.str "20250101000000".data ≠ PyVal.str "20250101000001".data ∧
      rtSpecKey (pyOrStr (pyGet [] "pipeline_id".data) "p1".data) "20250101000000".data ≠
        rtSpecKey (pyOrStr (pyGet [] "pipeline_id".data) "p1".data) "20250101000001".data ∧
      fsRead rem2 (rtSpecKey (pyOrStr (pyGet [] "pipeline_id".data) "p1".data)
        "20250101000000".data) = some (utf8Encode "c1".data) ∧
      fsRead rem2 (rtSpecKey (pyOrStr (pyGet [] "pipeline_id".data) "p1".data)
        "20250101000001".data) = some (utf8Encode "c2".data) :=
  C5_rt_sink_distinct_versions ⟨some storageDummy⟩ storageDummy rfl [] "ns".data
    "p1".data "c1".data "c2".data [] "20250101000000".data "i1".data
    "20250101000001".data "i2".data (by rfl) (by decide)

/-- C5 counterexample: two unversioned saves whose clock readings format
to the same second share one version string and one object key — the
second save overwrites the first (the store afterwards holds only the
second YAML under that key). -/
theorem C5_counterexample :
    pipelineFsOfOk (RTPipelineSink.save ⟨some storageDummy⟩ []
        "20250101120000".data "t".data "ns".data "p1".data "cfg1".data []) =
      some [(rtSpecKey "p1".data "20250101120000".data, utf8Encode "cfg1".data)] ∧
    pipelineFsOfOk (RTPipelineSink.save ⟨some storageDummy⟩
        [(rtSpecKey "p1".data "20250101120000".data, utf8Encode "cfg1".data)]
        "20250101120000".data "t".data "ns".data "p1".data "cfg2".data []) =
      some [(rtSpecKey "p1".data "20250101120000".data, utf8Encode "cfg2".data)] ∧
    (pipelineResultOfOk (RTPipelineSink.save ⟨some storageDummy⟩ []
        "20250101120000".data "t".data "ns".data "p1".data "cfg1".data [])).map
      (fun r => pyDictFind r.manifest "version".data) =
      (pipelineResultOfOk (RTPipelineSink.save ⟨some storageDummy⟩
        [(rtSpecKey "p1".data "20250101120000".data, utf8Encode "cfg1".data)]
        "20250101120000".data "t".data "ns".data "p1".data "cfg2".data [])).map
      (fun r => pyDictFind r.manifest "version".data) := ⟨rfl, rfl, rfl⟩

/-! ### `_fetch_storage_uri` and `_resolve_source_version` structure -/

theorem foldl_seg_no_slash (b : Str) (hb : ∀ c ∈ b, ¬(c = '/')) :
    ∀ acc, b.foldl (fun acc c => if c = '/' then [] else acc ++ [c]) acc = acc ++ b := by
  induction b with
  | nil =>
    intro acc
    simp
  | cons c bs ih =>
    intro acc
    rw [List.foldl_cons, if_neg (hb c (by simp))]
    rw [ih (fun d hd => hb d (by simp [hd])) (acc ++ [c])]
    simp

theorem lastSegment_append (a b : Str) (hb : ∀ c ∈ b, ¬(c = '/')) :
    lastSegment (a ++ '/' :: b) = b := by
  unfold lastSegment
  rw [List.foldl_append, List.foldl_cons, if_pos rfl]
  simpa using foldl_seg_no_slash b hb []

theorem lastSegment_envelope (bucket pre : Str) :
    lastSegment ("gs://".data ++ bucket ++ '/' :: pre ++ "/envelope/envelope.json".data) =
      "envelope.json".data := by
  have hlit : "/envelope/envelope.json".data =
      '/' :: ("envelope".data ++ '/' :: "envelope.json".data) := rfl
  have heq : "gs://".data ++ bucket ++ '/' :: pre ++ "/envelope/envelope.json".data =
      ("gs://".data ++ bucket ++ '/' :: pre ++ '/' :: "envelope".data) ++
        '/' :: "envelope.json".data := by
    rw [hlit]
    simp [List.append_assoc]
  rw [heq]
  exact lastSegment_append _ _ (by decide)

/-- What one successful envelope resolution does: it fetches the envelope
object and materializes it under the fixed name `envelope.json` in the
namespace's RT directory — whatever the environment, canonical source id
and source version id were. -/
theorem resolve_spec (p : RTDatasetProvider) (storage : StorageClient)
    (hs : p.storage_client = some storage) (fs : FS) (ns svid : Str)
    (pid env cid : Option Str) :
    ∃ payload md,
      p.resolve_source_version fs ns svid pid env cid =
        .ok ({ path := pathJoin (p.namespace_dir ns) "envelope.json".data
               content := some payload
               metadata := md },
             fsWrite fs (pathJoin (p.namespace_dir ns) "envelope.json".data) payload) := by
  have hens : p.ensure_storage = .ok storage := by
    unfold RTDatasetProvider.ensure_storage
    rw [hs]
  unfold RTDatasetProvider.resolve_source_version RTDatasetProvider.fetch_storage_uri
    RTDatasetProvider.write_bytes
  rw [hens]
  simp only [Bind.bind, Except.bind, Pure.pure, Except.pure]
  rw [lastSegment_envelope]
  exact ⟨_, _, rfl⟩

/-- C10 : every envelope resolution of the RT provider lands at the fixed
local path `<namespace>/rt/envelope.json`, independent of the
`(environment, canonical_source_id, source_version_id)` triple; two
successive resolutions of distinct source versions in one namespace
return the same path, the second one's payload overwriting the first's
file. -/
theorem C10_envelope_fixed_path (p : RTDatasetProvider) (storage : StorageClient)
    (hs : p.storage_client = some storage) (fs : FS) (ns s1 s2 : Str)
    (pid1 env1 cid1 pid2 env2 cid2 : Option Str) :
    ∃ r1 fs1 r2 fs2,
      p.resolve_source_version fs ns s1 pid1 env1 cid1 = .ok (r1, fs1) ∧
      p.resolve_source_version fs1 ns s2 pid2 env2 cid2 = .ok (r2, fs2) ∧
      r1.path = pathJoin (p.namespace_dir ns) "envelope.json".data ∧
      r2.path = r1.path ∧
      fsRead fs2 r1.path = r2.content := by
  obtain ⟨pl1, md1, h1⟩ := resolve_spec p storage hs fs ns s1 pid1 env1 cid1
  obtain ⟨pl2, md2, h2⟩ := resolve_spec p storage hs
    (fsWrite fs (pathJoin (p.namespace_dir ns) "envelope.json".data) pl1)
    ns s2 pid2 env2 cid2
  refine ⟨_, _, _, _, h1, h2, rfl, rfl, ?_⟩
  exact fsRead_fsWrite_self _ _ _

/-- C10 witness: two concrete resolutions of distinct source versions in
namespace `ns` share the path `/h/.docetl/ns/rt/envelope.json`. -/
theorem C10_envelope_fixed_path_witness :
    ∃ r1 fs1 r2 fs2,
      RTDatasetProvider.resolve_source_version
          ⟨some storageDummy, resolverDummy, "/h".data, "rt".data⟩ [] "ns".data
          "sv1".data none none none = .ok (r1, fs1) ∧
      RTDatasetProvider.resolve_source_version
          ⟨some storageDummy, resolverDummy, "/h".data, "rt".data⟩ fs1 "ns".data
          "sv2".data none none none = .ok (r2, fs2) ∧
      r1.path = pathJoin (RTDatasetProvider.namespace_dir
        ⟨some storageDummy, resolverDummy, "/h".data, "rt".data⟩ "ns".data)
        "envelope.json".data ∧
      r2.path = r1.path ∧
      fsRead fs2 r1.path = r2.content :=
  C10_envelope_fixed_path ⟨some storageDummy, resolverDummy, "/h".data, "rt".data⟩
    storageDummy rfl [] "ns".data "sv1".data "sv2".data none none none none none none

/-- C3 : for the RT provider, `load_dataset` on a `gs://` URL fetches the
bytes with the storage client's URI-get, materializes exactly those bytes
(unmodified) under the namespace directory at the URL's final segment,
tags `provider=rt` and records `source_uri`.  The Format Normalizer is
not involved — see the counterexample, where CSV bytes are stored raw. -/
theorem C3_gs_fetch (p : RTDatasetProvider) (storage : StorageClient)
    (hs : p.storage_client = some storage) (http : HttpClient) (fs : FS)
    (ns tail0 : Str) :
    p.load_dataset http fs ns (some ("gs://".data ++ tail0)) none none none none =
      .ok ({ path := pathJoin (p.namespace_dir ns)
               (if (lastSegment ("gs://".data ++ tail0)).isEmpty then "dataset.json".data
                else lastSegment ("gs://".data ++ tail0))
             content := some (storage.get_file_from_uri ("gs://".data ++ tail0))
             metadata := [("dataset_url".data, "gs://".data ++ tail0),
                          ("source_uri".data, "gs://".data ++ tail0),
                          ("namespace".data, ns),
                          ("provider".data, "rt".data)] },
           fsWrite fs
             (pathJoin (p.namespace_dir ns)
               (if (lastSegment ("gs://".data ++ tail0)).isEmpty then "dataset.json".data
                else lastSegment ("gs://".data ++ tail0)))
             (storage.get_file_from_uri ("gs://".data ++ tail0))) := by
  have hens : p.ensure_storage = .ok storage := by
    unfold RTDatasetProvider.ensure_storage
    rw [hs]
  have h1 : pyTruthyOptStr (some ("gs://".data ++ tail0)) = true := rfl
  have h2 : ("http://".data.isPrefixOf ("gs://".data ++ tail0) ||
      "https://".data.isPrefixOf ("gs://".data ++ tail0)) = false := rfl
  have h3 : "gs://".data.isPrefixOf ("gs://".data ++ tail0) = true := by
    rw [List.isPrefixOf_iff_prefix]
    exact List.prefix_append _ _
  unfold RTDatasetProvider.load_dataset RTDatasetProvider.fetch_storage_uri
    RTDatasetProvider.write_bytes
  rw [hens]
  simp only [h1, if_true, Option.getD_some, h2, Bool.false_eq_true, if_false, h3,
    Bind.bind, Except.bind, Pure.pure, Except.pure]
  rfl

/-- C3 witness: a concrete `gs://` load through a storage client serving
the bytes of `a,b\n1,2` stores exactly those bytes at
`/h/.docetl/ns/rt/data.csv` with `provider=rt` and `source_uri`
recorded. -/
theorem C3_gs_fetch_witness :
    RTDatasetProvider.load_dataset ⟨some storageCsv, resolverDummy, "/h".data, "rt".data⟩
        httpDummy [] "ns".data (some ("gs://".data ++ "b/data.csv".data)) none none
        none none =
      .ok ({ path := pathJoin (RTDatasetProvider.namespace_dir
               ⟨some storageCsv, resolverDummy, "/h".data, "rt".data⟩ "ns".data)
               (if (lastSegment ("gs://".data ++ "b/data.csv".data)).isEmpty
                then "dataset.json".data
                else lastSegment ("gs://".data ++ "b/data.csv".data))
             content := some (storageCsv.get_file_from_uri
               ("gs://".data ++ "b/data.csv".data))
             metadata := [("dataset_url".data, "gs://".data ++ "b/data.csv".data),
                          ("source_uri".data, "gs://".data ++ "b/data.csv".data),
                          ("namespace".data, "ns".data),
                          ("provider".data, "rt".data)] },
           fsWrite [] (pathJoin (RTDatasetProvider.namespace_dir
               ⟨some storageCsv, resolverDummy, "/h".data, "rt".data⟩ "ns".data)
               (if (lastSegment ("gs://".data ++ "b/data.csv".data)).isEmpty
                then "dataset.json".data
                else lastSegment ("gs://".data ++ "b/data.csv".data)))
             (storageCsv.get_file_from_uri ("gs://".data ++ "b/data.csv".data))) :=
  C3_gs_fetch ⟨some storageCsv, resolverDummy, "/h".data, "rt".data⟩ storageCsv rfl
    httpDummy [] "ns".data "b/data.csv".data

/-- C3 counterexample: the stored bytes of a `gs://` CSV fetch are the
raw payload; the Format Normalizer was not run, since running it on that
payload yields different (JSON) bytes, and the raw payload is not even
valid JSON. -/
theorem C3_counterexample :
    (resultOfOk (RTDatasetProvider.load_dataset
        ⟨some storageCsv, resolverDummy, "/h".data, "rt".data⟩ httpDummy [] "ns".data
        (some "gs://b/data.csv".data) none none none none)).map (fun r => r.content) =
      some (some (utf8Encode "a,b\n1,2".data)) ∧
    is_likely_csv (utf8Encode "a,b\n1,2".data) "data.csv".data = true ∧
    convert_csv_to_json (utf8Encode "a,b\n1,2".data) =
      .ok (utf8Encode "[\x7b\"a\": \"1\", \"b\": \"2\"\x7d]".data) ∧
    utf8Encode "[\x7b\"a\": \"1\", \"b\": \"2\"\x7d]".data ≠
      utf8Encode "a,b\n1,2".data ∧
    jsonLoadsBytes (utf8Encode "a,b\n1,2".data) = .error .invalidJsonFormat :=
  ⟨rfl, rfl, rfl, by decide, rfl⟩

end DocETL
